import Mathlib

/-!
Shallow embedding of the twitter-virality-app scoring pipeline.

The repository has two Python source files:
* `enhanced_algorithm.py` — the preferred heuristic scorer
  (`EnhancedTwitterAlgorithm`): feature extraction, sub-score calculators,
  composite virality score and suggestion generator.
* `twitter_algorithm_service.py` — the fallback service variant
  (`TwitterAlgorithmService`) with its own constant tables and formulas.

Modelling conventions:
* Python floats are modelled exactly as rationals (`ℚ`); the program's
  decimal constants are written as the corresponding fractions (`3/10`
  for `0.3`, and so on) so that all values evaluate by kernel reduction.
* The system clock is an explicit parameter: the wall-clock hour (0–23) for
  the timing curves and the capture timestamp in milliseconds for
  `extract_features`.
* `random.uniform(-0.1, 0.1)` in `calculate_user_reputation` is an explicit
  rational parameter `rand`.
* `str.lower` is modelled by `pyLower` (per-character ASCII lowering,
  adequate for the ASCII lookup tables of the program).
* Python's regexes are modelled by direct character-list scanners with the
  same matching semantics on the patterns the code uses
  (`https?://[^\s]+`, `\[media\]|\[photo\]|\[video\]`, `#\w+`, `@\w+`).
* Python's `int()` truncation toward zero is `pyInt`.
* The `try/except` boundaries of the service's sub-score calculators are
  modelled with `Except`: the try-block's outcome (a value, or a raised
  exception as `Except.error`) is fed to the boundary, which returns the
  documented default on the error arm.
-/

namespace Virality

/-- Python `int()` applied to a rational: truncation toward zero. -/
def pyInt (q : ℚ) : ℤ := if 0 ≤ q then ⌊q⌋ else ⌈q⌉

/-- Python's `pat in s` on character lists: `pat` occurs contiguously. -/
def occursIn (pat : List Char) : List Char → Bool
  | [] => pat.isEmpty
  | c :: cs => pat.isPrefixOf (c :: cs) || occursIn pat cs

/-- Python's `pat in s` on strings (substring containment). -/
def strContains (s pat : String) : Bool := occursIn pat.data s.data

/-- Python `str.lower` (ASCII model: per-character lowering). -/
def pyLower (s : String) : String := String.mk (s.data.map Char.toLower)

/-- A regex `\w` character: letter, digit or underscore (ASCII model). -/
def isWordChar (c : Char) : Bool := c.isAlphanum || c = '_'

/-- Whether a character list starts with a regex `\w` character. -/
def headIsWord (cs : List Char) : Bool :=
  match cs.head? with
  | some d => isWordChar d
  | none => false

/-- Fuel-driven scanner behind `countTagRuns`; the fuel only bounds the
recursion depth (each step strictly shortens the list, so `fuel = length`
never runs out). -/
def countTagRunsFuel (tag : Char) : Nat → List Char → Nat
  | 0, _ => 0
  | _ + 1, [] => 0
  | fuel + 1, c :: cs =>
    if c = tag && headIsWord cs then
      countTagRunsFuel tag fuel (cs.dropWhile isWordChar) + 1
    else countTagRunsFuel tag fuel cs

/-- Number of non-overlapping matches of `tag` followed by `\w+`
(Python `len(re.findall(r'#\w+', text))` with `tag = '#'`, and likewise
for `@\w+`). -/
def countTagRuns (tag : Char) (cs : List Char) : Nat :=
  countTagRunsFuel tag cs.length cs

/-- A Python `\s` whitespace character (ASCII model). -/
def isPySpace (c : Char) : Bool :=
  c = ' ' || c = '\t' || c = '\n' || c = '\r' || c = '\x0b' || c = '\x0c'

/-- The regex `https?://[^\s]+` matches starting at the head of `cs`. -/
def urlStartsHere (cs : List Char) : Bool :=
  (("http://").data.isPrefixOf cs &&
    (match cs.drop 7 with | c :: _ => !isPySpace c | [] => false)) ||
  (("https://").data.isPrefixOf cs &&
    (match cs.drop 8 with | c :: _ => !isPySpace c | [] => false))

/-- The regex `https?://[^\s]+` matches somewhere in the list. -/
def hasUrlIn : List Char → Bool
  | [] => false
  | c :: cs => urlStartsHere (c :: cs) || hasUrlIn cs

/-- The `TweetFeatures` record (identical dataclass in both source files). -/
structure TweetFeatures where
  text : String
  has_url : Bool
  has_media : Bool
  is_retweet : Bool
  is_reply : Bool
  length : Nat
  hashtag_count : Nat
  mention_count : Nat
  question_mark_count : Nat
  exclamation_count : Nat
  timestamp : Nat
  author_id : Option String := none
  tweet_id : Option String := none
deriving Repr, DecidableEq

/-- `EnhancedTwitterAlgorithm.extract_features`; `nowMs` is the value of
`int(time.time() * 1000)` at the call. -/
def extract_features (text : String) (nowMs : Nat) : TweetFeatures where
  text := text
  has_url := hasUrlIn text.data
  has_media :=
    strContains (pyLower text) ("[media]") || strContains (pyLower text) ("[photo]") ||
      strContains (pyLower text) ("[video]")
  is_retweet := ("RT @").data.isPrefixOf text.data || strContains text ("via @")
  is_reply := ("@").data.isPrefixOf text.data
  length := text.length
  hashtag_count := countTagRuns '#' text.data
  mention_count := countTagRuns '@' text.data
  question_mark_count := text.data.count '?'
  exclamation_count := text.data.count '!'
  timestamp := nowMs

/-- `self.trending_topics` of `EnhancedTwitterAlgorithm`. -/
def trending_topics : List (String × ℚ) :=
  [("ai", (9/10)), ("artificial intelligence", (9/10)), ("machine learning", (4/5)),
   ("crypto", (4/5)), ("bitcoin", (4/5)), ("blockchain", (7/10)),
   ("tech", (7/10)), ("startup", (7/10)), ("innovation", (3/5)),
   ("breaking", (9/10)), ("news", (3/5)), ("update", (1/2)),
   ("launch", (4/5)), ("release", (7/10)), ("announcement", (4/5))]

/-- `self.emotional_words` of `EnhancedTwitterAlgorithm`. -/
def emotional_words : List (String × ℚ) :=
  [("amazing", (4/5)), ("incredible", (4/5)), ("shocking", (9/10)),
   ("unbelievable", (4/5)), ("mind-blowing", (9/10)), ("wow", (7/10)),
   ("excited", (3/5)), ("thrilled", (7/10)), ("pumped", (3/5)),
   ("love", (3/5)), ("hate", (1/2)), ("angry", (2/5))]

/-- `self.cta_words` of `EnhancedTwitterAlgorithm`. -/
def cta_words : List (String × ℚ) :=
  [("what", (3/5)), ("think", (7/10)), ("opinion", (4/5)),
   ("agree", (7/10)), ("disagree", (4/5)), ("thoughts", (4/5)),
   ("share", (7/10)), ("retweet", (3/5)), ("comment", (3/5))]

/-- `EnhancedTwitterAlgorithm.calculate_trending_score`: maximum weight of a
trending topic occurring in the lower-cased text, 0 if none. -/
def calculate_trending_score (text : String) : ℚ :=
  trending_topics.foldl
    (fun m p => if strContains (pyLower text) p.1 then max m p.2 else m) 0

/-- `EnhancedTwitterAlgorithm.calculate_emotional_score`: sum of weights of
matching emotional words, clamped above by 1. -/
def calculate_emotional_score (text : String) : ℚ :=
  min (emotional_words.foldl
    (fun s p => if strContains (pyLower text) p.1 then s + p.2 else s) 0) 1

/-- `EnhancedTwitterAlgorithm.calculate_cta_score`: sum of weights of matching
call-to-action words, clamped above by 1. -/
def calculate_cta_score (text : String) : ℚ :=
  min (cta_words.foldl
    (fun s p => if strContains (pyLower text) p.1 then s + p.2 else s) 0) 1

/-- `EnhancedTwitterAlgorithm.calculate_content_quality`. -/
def calculate_content_quality (features : TweetFeatures) : ℚ :=
  let score : ℚ := (3/10)
  let score :=
    if 100 ≤ features.length ∧ features.length ≤ 200 then score + (3/10)
    else if 50 ≤ features.length ∧ features.length ≤ 280 then score + (1/5)
    else if features.length < 50 then score - (1/10)
    else score
  let score := score + calculate_trending_score features.text * (1/5)
  let score := score + calculate_emotional_score features.text * (3/20)
  let score := score + calculate_cta_score features.text * (1/10)
  let score := if 0 < features.question_mark_count then score + (1/10) else score
  let score :=
    if 1 ≤ features.exclamation_count ∧ features.exclamation_count ≤ 2 then score + (1/20)
    else if 3 < features.exclamation_count then score - (1/20)
    else score
  max 0 (min 1 score)

/-- `EnhancedTwitterAlgorithm.calculate_engagement_potential`. -/
def calculate_engagement_potential (features : TweetFeatures) : ℚ :=
  let score : ℚ := (1/5)
  let score := if 0 < features.question_mark_count then score + (1/4) else score
  let score := score + calculate_cta_score features.text * (1/5)
  let score := score + calculate_emotional_score features.text * (3/20)
  let score :=
    if 1 ≤ features.hashtag_count ∧ features.hashtag_count ≤ 3 then score + (1/10)
    else if 5 < features.hashtag_count then score - (1/10)
    else score
  let score :=
    if 1 ≤ features.mention_count ∧ features.mention_count ≤ 2 then score + (1/20)
    else if 3 < features.mention_count then score - (1/20)
    else score
  let score := if features.has_url then score + (1/20) else score
  max 0 (min 1 score)

/-- `EnhancedTwitterAlgorithm.calculate_dynamic_timing`; `hour` is the local
wall-clock hour (0–23). -/
def calculate_dynamic_timing (hour : Nat) : ℚ :=
  if 9 ≤ hour ∧ hour ≤ 10 then (9/10)
  else if 12 ≤ hour ∧ hour ≤ 13 then (17/20)
  else if 17 ≤ hour ∧ hour ≤ 18 then (4/5)
  else if 19 ≤ hour ∧ hour ≤ 21 then (3/4)
  else if 8 ≤ hour ∧ hour ≤ 22 then (3/5)
  else (3/10)

/-- The `professional_words` list of `calculate_user_reputation`. -/
def professional_words : List String :=
  ["launch", "announce", "introduce", "release", "update"]

/-- `EnhancedTwitterAlgorithm.calculate_user_reputation`; `rand` is the value
drawn by `random.uniform(-0.1, 0.1)`. -/
def calculate_user_reputation (text : String) (rand : ℚ) : ℚ :=
  let score : ℚ := (1/2)
  let score := if 100 < text.length then score + (1/10) else score
  let score := score + calculate_trending_score text * (1/10)
  let score :=
    if professional_words.any (fun w => strContains (pyLower text) w) then score + (1/10)
    else score
  let score := score + rand
  max (3/10) (min (9/10) score)

/-- The inline `toxic_words` list of
`EnhancedTwitterAlgorithm.calculate_virality_score`. -/
def enhanced_toxic_words : List String := ["hate", "stupid", "idiot", "kill", "die"]

/-- The inline toxicity heuristic of
`EnhancedTwitterAlgorithm.calculate_virality_score`:
`sum(0.2 for word in toxic_words if word in text.lower())`. -/
def enhanced_toxicity_score (text : String) : ℚ :=
  enhanced_toxic_words.foldl
    (fun s w => if strContains (pyLower text) w then s + (1/5) else s) 0

/-- The breakdown map of named sub-scores. -/
structure Breakdown where
  content_quality : ℚ
  social_signals : ℚ
  timing : ℚ
  user_reputation : ℚ
  safety_score : ℚ
deriving Repr, DecidableEq

/-- Sum of the five breakdown values (`sum(breakdown.values())`). -/
def Breakdown.total (b : Breakdown) : ℚ :=
  b.content_quality + b.social_signals + b.timing + b.user_reputation + b.safety_score

/-- One suggestion record emitted by the suggestion generators. -/
structure Suggestion where
  type : String
  priority : String
  suggestion : String
  expected_improvement : Nat
deriving Repr, DecidableEq

/-- `EnhancedTwitterAlgorithm.generate_suggestions`. -/
def generate_suggestions (breakdown : Breakdown) (features : TweetFeatures) :
    List Suggestion :=
  (if breakdown.content_quality < (3/5) then
    [if features.length < 100 then
      ⟨"content", "high",
        "Expand your tweet to 100-200 characters for better engagement", 20⟩
     else
      ⟨"content", "high",
        "Add trending keywords or emotional language to boost content quality", 15⟩]
   else []) ++
  (if breakdown.social_signals < (1/2) then
    [if features.question_mark_count = 0 then
      ⟨"engagement", "high",
        "Add a question to encourage replies and increase engagement", 25⟩
     else
      ⟨"engagement", "medium",
        "Use more call-to-action words like \"think\", \"opinion\", or \"share\"", 15⟩]
   else []) ++
  (if breakdown.timing < (7/10) then
    [⟨"timing", "medium",
      "Consider posting during peak hours (9-10 AM, 12-1 PM, 5-6 PM, 7-9 PM)", 10⟩]
   else []) ++
  (if features.hashtag_count = 0 then
    [⟨"discoverability", "medium",
      "Add 1-3 relevant hashtags to increase discoverability", 12⟩]
   else if 3 < features.hashtag_count then
    [⟨"discoverability", "low",
      "Reduce hashtags to 1-3 for better performance", 8⟩]
   else [])

/-- The result record of `EnhancedTwitterAlgorithm.calculate_virality_score`
(the `score` object flattened, plus suggestions, version and timing). -/
structure AlgorithmResult where
  light_ranker_score : ℚ
  heavy_ranker_score : Option ℚ
  toxicity_score : ℚ
  engagement_score : ℚ
  virality_score : ℤ
  features : TweetFeatures
  breakdown : Breakdown
  suggestions : List Suggestion
  algorithm_version : String
  processing_time : Nat
deriving Repr, DecidableEq

/-- `EnhancedTwitterAlgorithm.calculate_virality_score`; `hour` is the local
hour read by `calculate_dynamic_timing`, `rand` the uniform draw of
`calculate_user_reputation`, `nowMs` the extraction timestamp. -/
def calculate_virality_score (text : String) (hour : Nat) (rand : ℚ)
    (nowMs : Nat) : AlgorithmResult :=
  let features := extract_features text nowMs
  let content_quality := calculate_content_quality features
  let engagement_potential := calculate_engagement_potential features
  let timing_score := calculate_dynamic_timing hour
  let user_reputation := calculate_user_reputation text rand
  let toxicity_score := enhanced_toxicity_score text
  let safety_score := max 0 (1 - toxicity_score)
  let breakdown : Breakdown :=
    { content_quality := content_quality
      social_signals := engagement_potential
      timing := timing_score
      user_reputation := user_reputation
      safety_score := safety_score * (1/5) }
  { light_ranker_score := content_quality
    heavy_ranker_score := none
    toxicity_score := toxicity_score
    engagement_score := engagement_potential
    virality_score := pyInt (breakdown.total * 100)
    features := features
    breakdown := breakdown
    suggestions := generate_suggestions breakdown features
    algorithm_version := "enhanced-ai-v2.0"
    processing_time := 0 }

/-- `TwitterAlgorithmService.extract_features`: identical to the enhanced
extractor but fills the optional metadata identifiers. -/
def service_extract_features (text : String) (nowMs : Nat)
    (author_id tweet_id : Option String) : TweetFeatures :=
  { extract_features text nowMs with author_id := author_id, tweet_id := tweet_id }

/-- The try-block body of `TwitterAlgorithmService.calculate_light_ranker_score`. -/
def service_light_ranker_body (features : TweetFeatures) : ℚ :=
  let score : ℚ := (1/2)
  let score := if 50 ≤ features.length ∧ features.length ≤ 200 then score + (1/10) else score
  let score := if 0 < features.question_mark_count then score + (1/20) else score
  let score :=
    if 0 < features.exclamation_count ∧ features.exclamation_count ≤ 2 then score + (3/100)
    else score
  let score :=
    if 1 ≤ features.hashtag_count ∧ features.hashtag_count ≤ 3 then score + (2/25) else score
  let score :=
    if 1 ≤ features.mention_count ∧ features.mention_count ≤ 2 then score + (1/20) else score
  let score := if features.has_url then score + (1/50) else score
  let score := if features.has_media then score + (1/20) else score
  let score := if features.is_retweet then score - (1/10) else score
  let score := if 5 < features.hashtag_count then score - (1/10) else score
  let score := if 3 < features.mention_count then score - (1/20) else score
  let score := if 3 < features.exclamation_count then score - (1/20) else score
  max 0 (min 1 score)

/-- The try/except boundary of
`TwitterAlgorithmService.calculate_light_ranker_score`: the try block either
produces a value (`Except.ok`) or raises (`Except.error`); the except arm
returns the default 0.5. -/
def service_light_ranker_score (tryOutcome : Except String ℚ) : ℚ :=
  match tryOutcome with
  | Except.ok v => v
  | Except.error _ => (1/2)

/-- The `toxic_words` list of
`TwitterAlgorithmService.calculate_toxicity_score`. -/
def service_toxic_words : List String :=
  ["hate", "stupid", "idiot", "moron", "kill", "die", "damn", "hell",
   "crap", "suck", "terrible", "awful", "disgusting", "pathetic"]

/-- The try-block body of `TwitterAlgorithmService.calculate_toxicity_score`:
`min(toxic_word_count * 0.2, 1.0)`. -/
def service_toxicity_body (text : String) : ℚ :=
  min ((service_toxic_words.countP (fun w => strContains (pyLower text) w) : ℚ) * (1/5)) 1

/-- The try/except boundary of
`TwitterAlgorithmService.calculate_toxicity_score`: default 0.1 on error. -/
def service_toxicity_score (tryOutcome : Except String ℚ) : ℚ :=
  match tryOutcome with
  | Except.ok v => v
  | Except.error _ => (1/10)

/-- The `cta_words` list of `TwitterAlgorithmService.calculate_engagement_score`. -/
def service_cta_words : List String :=
  ["what", "think", "opinion", "agree", "disagree", "thoughts", "share"]

/-- The `emotional_words` list of
`TwitterAlgorithmService.calculate_engagement_score`. -/
def service_emotional_words : List String :=
  ["amazing", "incredible", "shocking", "unbelievable", "wow"]

/-- The try-block body of `TwitterAlgorithmService.calculate_engagement_score`. -/
def service_engagement_body (features : TweetFeatures) : ℚ :=
  let score : ℚ := (3/10)
  let score := if 0 < features.question_mark_count then score + (1/5) else score
  let score := score +
    (service_cta_words.countP (fun w => strContains (pyLower features.text) w) : ℚ) * (1/20)
  let score := score +
    (service_emotional_words.countP (fun w => strContains (pyLower features.text) w) : ℚ) * (3/100)
  let score := if 100 ≤ features.length ∧ features.length ≤ 200 then score + (1/10) else score
  max 0 (min 1 score)

/-- The try/except boundary of
`TwitterAlgorithmService.calculate_engagement_score`: default 0.3 on error. -/
def service_engagement_score (tryOutcome : Except String ℚ) : ℚ :=
  match tryOutcome with
  | Except.ok v => v
  | Except.error _ => (3/10)

/-- The `peak_hours` list of `TwitterAlgorithmService.calculate_timing_score`. -/
def service_peak_hours : List Nat := [9, 10, 12, 13, 17, 18, 19, 20, 21]

/-- `TwitterAlgorithmService.calculate_timing_score`. -/
def service_timing_score (hour : Nat) : ℚ :=
  if hour ∈ service_peak_hours then (9/10)
  else if 8 ≤ hour ∧ hour ≤ 22 then (7/10)
  else (2/5)

/-- The `AlgorithmScore` dataclass of `twitter_algorithm_service.py`. -/
structure AlgorithmScore where
  light_ranker_score : ℚ
  heavy_ranker_score : Option ℚ
  toxicity_score : ℚ
  engagement_score : ℚ
  virality_score : ℤ
  features : TweetFeatures
  breakdown : Breakdown
deriving Repr, DecidableEq

/-- `TwitterAlgorithmService.calculate_virality_score` on the normal path
(the awaited sub-score calculators return their try-block values). -/
def service_calculate_virality_score (text : String) (hour : Nat) (nowMs : Nat)
    (author_id tweet_id : Option String) : AlgorithmScore :=
  let features := service_extract_features text nowMs author_id tweet_id
  let light_ranker_score := service_light_ranker_score (Except.ok (service_light_ranker_body features))
  let toxicity_score := service_toxicity_score (Except.ok (service_toxicity_body text))
  let engagement_score := service_engagement_score (Except.ok (service_engagement_body features))
  let breakdown : Breakdown :=
    { content_quality := light_ranker_score * (2/5)
      social_signals := engagement_score * (3/10)
      timing := service_timing_score hour
      user_reputation := (7/10)
      safety_score := (1 - toxicity_score) * (1/5) }
  { light_ranker_score := light_ranker_score
    heavy_ranker_score := none
    toxicity_score := toxicity_score
    engagement_score := engagement_score
    virality_score := pyInt (breakdown.total * 100)
    features := features
    breakdown := breakdown }

/-- The content-quality formula exactly as the spec words it (one additive
expression followed by a single clamp), to be compared with
`calculate_content_quality` as translated from the source. -/
def content_quality_formula (features : TweetFeatures) : ℚ :=
  max 0 (min 1 ((3/10)
    + (if 100 ≤ features.length ∧ features.length ≤ 200 then (3/10)
       else if 50 ≤ features.length ∧ features.length ≤ 280 then (1/5)
       else if features.length < 50 then -(1/10) else 0)
    + calculate_trending_score features.text * (1/5)
    + calculate_emotional_score features.text * (3/20)
    + calculate_cta_score features.text * (1/10)
    + (if 0 < features.question_mark_count then (1/10) else 0)
    + (if 1 ≤ features.exclamation_count ∧ features.exclamation_count ≤ 2 then (1/20)
       else if 3 < features.exclamation_count then -(1/20) else 0)))

/- Helper lemmas shared by the claim theorems. -/

theorem clamp01_nonneg (q : ℚ) : 0 ≤ max 0 (min 1 q) := le_max_left 0 _

theorem clamp01_le_one (q : ℚ) : max 0 (min 1 q) ≤ 1 :=
  max_le (by norm_num) (min_le_left 1 q)

theorem pyInt_eq_floor (q : ℚ) (h : 0 ≤ q) : pyInt q = ⌊q⌋ := if_pos h

theorem content_quality_nonneg (f : TweetFeatures) : 0 ≤ calculate_content_quality f :=
  clamp01_nonneg _

theorem content_quality_le_one (f : TweetFeatures) : calculate_content_quality f ≤ 1 :=
  clamp01_le_one _

theorem engagement_nonneg (f : TweetFeatures) : 0 ≤ calculate_engagement_potential f :=
  clamp01_nonneg _

theorem engagement_le_one (f : TweetFeatures) : calculate_engagement_potential f ≤ 1 :=
  clamp01_le_one _

theorem timing_mem_steps (hour : Nat) :
    calculate_dynamic_timing hour ∈ ([(9/10), (17/20), (4/5), (3/4), (3/5), (3/10)] : List ℚ) := by
  unfold calculate_dynamic_timing
  split_ifs <;> simp

theorem timing_nonneg (hour : Nat) : 0 ≤ calculate_dynamic_timing hour := by
  unfold calculate_dynamic_timing
  split_ifs <;> norm_num

theorem timing_le_one (hour : Nat) : calculate_dynamic_timing hour ≤ 1 := by
  unfold calculate_dynamic_timing
  split_ifs <;> norm_num

theorem user_reputation_lb (text : String) (rand : ℚ) :
    (3/10) ≤ calculate_user_reputation text rand := le_max_left _ _

theorem user_reputation_ub (text : String) (rand : ℚ) :
    calculate_user_reputation text rand ≤ (9/10) :=
  max_le (by norm_num) (min_le_left _ _)

theorem toxic_foldl_eq (t : String) (l : List String) : ∀ s : ℚ,
    l.foldl (fun a w => if strContains t w then a + (1/5) else a) s
      = s + (1/5) * ((l.filter (fun w => strContains t w)).length : ℚ) := by
  induction l with
  | nil => intro s; simp
  | cons w l ih =>
    intro s
    by_cases h : strContains t w = true
    · rw [List.foldl_cons, List.filter_cons, if_pos h, if_pos h, ih, List.length_cons]
      push_cast
      ring
    · rw [List.foldl_cons, List.filter_cons, if_neg h, if_neg h, ih]

theorem enhanced_toxicity_eq (text : String) :
    enhanced_toxicity_score text
      = (1/5) * ((enhanced_toxic_words.filter
          (fun w => strContains (pyLower text) w)).length : ℚ) := by
  unfold enhanced_toxicity_score
  rw [toxic_foldl_eq]
  ring

theorem enhanced_toxicity_nonneg (text : String) : 0 ≤ enhanced_toxicity_score text := by
  rw [enhanced_toxicity_eq]
  positivity

theorem enhanced_toxicity_le_one (text : String) : enhanced_toxicity_score text ≤ 1 := by
  rw [enhanced_toxicity_eq]
  have h : ((enhanced_toxic_words.filter
      (fun w => strContains (pyLower text) w)).length : ℚ) ≤ 5 := by
    have h5 := List.length_filter_le (fun w => strContains (pyLower text) w) enhanced_toxic_words
    have : (enhanced_toxic_words.filter (fun w => strContains (pyLower text) w)).length ≤ 5 := h5
    exact_mod_cast this
  linarith

theorem virality_breakdown_eq (text : String) (hour : Nat) (rand : ℚ) (nowMs : Nat) :
    (calculate_virality_score text hour rand nowMs).breakdown =
      { content_quality := calculate_content_quality (extract_features text nowMs)
        social_signals := calculate_engagement_potential (extract_features text nowMs)
        timing := calculate_dynamic_timing hour
        user_reputation := calculate_user_reputation text rand
        safety_score := max 0 (1 - enhanced_toxicity_score text) * (1/5) } := rfl

theorem virality_suggestions_eq (text : String) (hour : Nat) (rand : ℚ) (nowMs : Nat) :
    (calculate_virality_score text hour rand nowMs).suggestions =
      generate_suggestions ((calculate_virality_score text hour rand nowMs).breakdown)
        (extract_features text nowMs) := rfl

theorem virality_score_eq_pyInt (text : String) (hour : Nat) (rand : ℚ) (nowMs : Nat) :
    (calculate_virality_score text hour rand nowMs).virality_score =
      pyInt ((calculate_virality_score text hour rand nowMs).breakdown.total * 100) := rfl

theorem enhanced_total_nonneg (text : String) (hour : Nat) (rand : ℚ) (nowMs : Nat) :
    0 ≤ (calculate_virality_score text hour rand nowMs).breakdown.total := by
  rw [virality_breakdown_eq]
  unfold Breakdown.total
  dsimp only
  have h1 := content_quality_nonneg (extract_features text nowMs)
  have h2 := engagement_nonneg (extract_features text nowMs)
  have h3 := timing_nonneg hour
  have h4 := user_reputation_lb text rand
  have h5 : (0 : ℚ) ≤ max 0 (1 - enhanced_toxicity_score text) := le_max_left _ _
  have h6 : (0 : ℚ) ≤ max 0 (1 - enhanced_toxicity_score text) * (1/5) :=
    mul_nonneg h5 (by norm_num)
  linarith

theorem service_timing_nonneg (hour : Nat) : 0 ≤ service_timing_score hour := by
  unfold service_timing_score
  split_ifs <;> norm_num

theorem service_breakdown_eq (text : String) (hour : Nat) (nowMs : Nat)
    (author_id tweet_id : Option String) :
    (service_calculate_virality_score text hour nowMs author_id tweet_id).breakdown =
      { content_quality :=
          service_light_ranker_body (service_extract_features text nowMs author_id tweet_id) * (2/5)
        social_signals :=
          service_engagement_body (service_extract_features text nowMs author_id tweet_id) * (3/10)
        timing := service_timing_score hour
        user_reputation := (7/10)
        safety_score := (1 - service_toxicity_body text) * (1/5) } := rfl

theorem service_total_nonneg (text : String) (hour : Nat) (nowMs : Nat)
    (author_id tweet_id : Option String) :
    0 ≤ (service_calculate_virality_score text hour nowMs author_id tweet_id).breakdown.total := by
  rw [service_breakdown_eq]
  unfold Breakdown.total
  dsimp only
  have h1 : (0 : ℚ) ≤ service_light_ranker_body (service_extract_features text nowMs author_id tweet_id) :=
    clamp01_nonneg _
  have h2 : (0 : ℚ) ≤ service_engagement_body (service_extract_features text nowMs author_id tweet_id) :=
    clamp01_nonneg _
  have h3 := service_timing_nonneg hour
  have h4 : service_toxicity_body text ≤ 1 := min_le_right _ _
  nlinarith

/-- C1: for every input text (and clock hour, random draw, timestamp), the
composite `virality_score` equals `floor(100 * (content_quality +
social_signals + timing + user_reputation + safety_score))`, the sum of the
five breakdown values, truncated to an integer, in both the enhanced and the
service variant; no final clamp is applied, and a concrete input with all
sub-scores driven to their maxima yields a `virality_score` exceeding 100. -/
theorem virality_floor_and_unclamped :
    (∀ (text : String) (hour : Nat) (rand : ℚ) (nowMs : Nat),
      (calculate_virality_score text hour rand nowMs).virality_score =
        ⌊(calculate_virality_score text hour rand nowMs).breakdown.total * 100⌋) ∧
    (∀ (text : String) (hour : Nat) (nowMs : Nat) (author_id tweet_id : Option String),
      (service_calculate_virality_score text hour nowMs author_id tweet_id).virality_score =
        ⌊(service_calculate_virality_score text hour nowMs author_id tweet_id).breakdown.total * 100⌋) ∧
    100 < (calculate_virality_score
      ("ai launch amazing incredible shocking wow what do you think share your thoughts? #ai #tech @user http://x.co !")
      9 0 0).virality_score := by
  refine ⟨?_, ?_, ?_⟩
  · intro text hour rand nowMs
    rw [virality_score_eq_pyInt]
    exact pyInt_eq_floor _ (by have := enhanced_total_nonneg text hour rand nowMs; positivity)
  · intro text hour nowMs author_id tweet_id
    have e : (service_calculate_virality_score text hour nowMs author_id tweet_id).virality_score =
        pyInt ((service_calculate_virality_score text hour nowMs author_id tweet_id).breakdown.total * 100) := rfl
    rw [e]
    exact pyInt_eq_floor _
      (by have := service_total_nonneg text hour nowMs author_id tweet_id; positivity)
  · simp +decide only [calculate_virality_score, extract_features, calculate_content_quality,
      calculate_engagement_potential, calculate_dynamic_timing, calculate_user_reputation,
      calculate_trending_score, calculate_emotional_score, calculate_cta_score,
      enhanced_toxicity_score, trending_topics, emotional_words, cta_words,
      professional_words, enhanced_toxic_words, List.foldl, List.any, Breakdown.total]
    norm_num [pyInt, max_def, min_def]

/-- C2: for every input text (and clock hour, random draw, timestamp), every
value in the breakdown map lies in [0,1]: `content_quality` and
`social_signals` are clamped to [0,1], `timing` is one of the fixed step
values 0.9, 0.85, 0.8, 0.75, 0.6, 0.3 (all in [0,1]), `user_reputation` is
clamped to [0.3,0.9], and `safety_score` (pre-scaled by 0.2) lies in
[0,0.2]. -/
theorem breakdown_values_in_documented_ranges (text : String) (hour : Nat)
    (rand : ℚ) (nowMs : Nat) :
    (0 ≤ (calculate_virality_score text hour rand nowMs).breakdown.content_quality ∧
      (calculate_virality_score text hour rand nowMs).breakdown.content_quality ≤ 1) ∧
    (0 ≤ (calculate_virality_score text hour rand nowMs).breakdown.social_signals ∧
      (calculate_virality_score text hour rand nowMs).breakdown.social_signals ≤ 1) ∧
    (calculate_virality_score text hour rand nowMs).breakdown.timing ∈
      ([(9/10), (17/20), (4/5), (3/4), (3/5), (3/10)] : List ℚ) ∧
    (0 ≤ (calculate_virality_score text hour rand nowMs).breakdown.timing ∧
      (calculate_virality_score text hour rand nowMs).breakdown.timing ≤ 1) ∧
    ((3/10) ≤ (calculate_virality_score text hour rand nowMs).breakdown.user_reputation ∧
      (calculate_virality_score text hour rand nowMs).breakdown.user_reputation ≤ (9/10)) ∧
    (0 ≤ (calculate_virality_score text hour rand nowMs).breakdown.safety_score ∧
      (calculate_virality_score text hour rand nowMs).breakdown.safety_score ≤ (1/5)) := by
  rw [virality_breakdown_eq]
  dsimp only
  refine ⟨⟨content_quality_nonneg _, content_quality_le_one _⟩,
    ⟨engagement_nonneg _, engagement_le_one _⟩,
    timing_mem_steps hour,
    ⟨timing_nonneg hour, timing_le_one hour⟩,
    ⟨user_reputation_lb text rand, user_reputation_ub text rand⟩,
    ?_, ?_⟩
  · have h : (0 : ℚ) ≤ max 0 (1 - enhanced_toxicity_score text) := le_max_left _ _
    positivity
  · have h : max 0 (1 - enhanced_toxicity_score text) ≤ 1 := by
      have := enhanced_toxicity_nonneg text
      exact max_le (by norm_num) (by linarith)
    nlinarith [le_max_left (0 : ℚ) (1 - enhanced_toxicity_score text)]

/-- C3: for every feature record, `calculate_content_quality` equals the
spec's formula: base 0.3, the length band bonus/penalty, the weighted
trending/emotional/CTA terms, the question bonus, the exclamation
adjustment, all summed and then clamped once to [0,1]. -/
theorem content_quality_matches_spec_formula (features : TweetFeatures) :
    calculate_content_quality features = content_quality_formula features := by
  unfold calculate_content_quality content_quality_formula
  dsimp only
  split_ifs <;> ring_nf

/-- C4: the scoring pipeline is deterministic: two runs on the same text with
the clock (hour and timestamp) and the random perturbation held fixed produce
identical results — same features, same breakdown, same virality score and
same suggestion sequence. -/
theorem pipeline_deterministic (text₁ text₂ : String) (hour₁ hour₂ : Nat)
    (rand₁ rand₂ : ℚ) (now₁ now₂ : Nat)
    (ht : text₁ = text₂) (hh : hour₁ = hour₂) (hr : rand₁ = rand₂) (hn : now₁ = now₂) :
    calculate_virality_score text₁ hour₁ rand₁ now₁ =
      calculate_virality_score text₂ hour₂ rand₂ now₂ ∧
    (calculate_virality_score text₁ hour₁ rand₁ now₁).features =
      (calculate_virality_score text₂ hour₂ rand₂ now₂).features ∧
    (calculate_virality_score text₁ hour₁ rand₁ now₁).breakdown =
      (calculate_virality_score text₂ hour₂ rand₂ now₂).breakdown ∧
    (calculate_virality_score text₁ hour₁ rand₁ now₁).virality_score =
      (calculate_virality_score text₂ hour₂ rand₂ now₂).virality_score ∧
    (calculate_virality_score text₁ hour₁ rand₁ now₁).suggestions =
      (calculate_virality_score text₂ hour₂ rand₂ now₂).suggestions := by
  subst ht hh hr hn
  exact ⟨rfl, rfl, rfl, rfl, rfl⟩

/-- Witness for C4 at a concrete input: two textually identical invocations
agree. -/
theorem pipeline_deterministic_witness :
    calculate_virality_score ("hello world") 9 0 1000 =
      calculate_virality_score ("hello world") 9 0 1000 :=
  (pipeline_deterministic ("hello world") ("hello world") 9 9 0 0 1000 1000
    rfl rfl rfl rfl).1

/-- C5 counterexample: the text `"ai amazing wow what think shar"` has length
30, no question mark and no hashtag, and hour 3 is off-peak (timing 0.3 <
0.7), yet the pipeline emits only the timing and add-hashtags suggestions —
neither the content-expansion suggestion (high, +20) nor the add-a-question
suggestion (high, +25) is produced, because this text's content_quality is
0.63 ≥ 0.6 and its social_signals is 0.55 ≥ 0.5. -/
theorem suggestion_triple_counterexample :
    (extract_features ("ai amazing wow what think shar") 0).length = 30 ∧
    (extract_features ("ai amazing wow what think shar") 0).question_mark_count = 0 ∧
    (extract_features ("ai amazing wow what think shar") 0).hashtag_count = 0 ∧
    calculate_dynamic_timing 3 < 7/10 ∧
    (calculate_virality_score ("ai amazing wow what think shar") 3 0 0).suggestions =
      [⟨"timing", "medium",
        "Consider posting during peak hours (9-10 AM, 12-1 PM, 5-6 PM, 7-9 PM)", 10⟩,
       ⟨"discoverability", "medium",
        "Add 1-3 relevant hashtags to increase discoverability", 12⟩] := by
  refine ⟨by decide, by decide, by decide, by norm_num [calculate_dynamic_timing], ?_⟩
  simp +decide only [calculate_virality_score, extract_features, calculate_content_quality,
    calculate_engagement_potential, calculate_dynamic_timing, calculate_user_reputation,
    calculate_trending_score, calculate_emotional_score, calculate_cta_score,
    enhanced_toxicity_score, trending_topics, emotional_words, cta_words,
    professional_words, enhanced_toxic_words, List.foldl, List.any, generate_suggestions]
  norm_num [max_def, min_def]

/-- C5 (amended): for every text of length 30 with no question mark and no
hashtags, scored at an hour whose timing score is below 0.7, and whose
computed content_quality is below 0.6 and social_signals below 0.5, the
suggestion generator emits at least three suggestions, among them the
content-expansion suggestion (priority high, expected_improvement 20), the
add-a-question suggestion (priority high, expected_improvement 25) and the
add-hashtags suggestion (priority medium, expected_improvement 12). -/
theorem suggestion_triple_for_low_scores (text : String) (hour : Nat) (rand : ℚ)
    (nowMs : Nat)
    (hlen : (extract_features text nowMs).length = 30)
    (hq : (extract_features text nowMs).question_mark_count = 0)
    (hh : (extract_features text nowMs).hashtag_count = 0)
    (ht : calculate_dynamic_timing hour < 7/10)
    (hc : calculate_content_quality (extract_features text nowMs) < 3/5)
    (hs : calculate_engagement_potential (extract_features text nowMs) < 1/2) :
    (⟨"content", "high",
      "Expand your tweet to 100-200 characters for better engagement", 20⟩ : Suggestion) ∈
        (calculate_virality_score text hour rand nowMs).suggestions ∧
    (⟨"engagement", "high",
      "Add a question to encourage replies and increase engagement", 25⟩ : Suggestion) ∈
        (calculate_virality_score text hour rand nowMs).suggestions ∧
    (⟨"discoverability", "medium",
      "Add 1-3 relevant hashtags to increase discoverability", 12⟩ : Suggestion) ∈
        (calculate_virality_score text hour rand nowMs).suggestions ∧
    3 ≤ (calculate_virality_score text hour rand nowMs).suggestions.length := by
  have h100 : (extract_features text nowMs).length < 100 := by
    rw [hlen]; norm_num
  rw [virality_suggestions_eq, virality_breakdown_eq]
  unfold generate_suggestions
  dsimp only
  rw [if_pos hc, if_pos h100, if_pos hs, if_pos hq, if_pos ht, if_pos hh]
  refine ⟨?_, ?_, ?_, ?_⟩ <;> simp

/-- Witness for the amended C5 at a 30-character text of plain letters,
scored at hour 3 (timing 0.3). -/
theorem suggestion_triple_for_low_scores_witness :
    (⟨"content", "high",
      "Expand your tweet to 100-200 characters for better engagement", 20⟩ : Suggestion) ∈
        (calculate_virality_score ("aaaaaaaaaaaaaaaaaaaaaaaaaaaaaa") 3 0 0).suggestions :=
  (suggestion_triple_for_low_scores ("aaaaaaaaaaaaaaaaaaaaaaaaaaaaaa") 3 0 0
    (by decide) (by decide) (by decide)
    (by norm_num [calculate_dynamic_timing])
    (by simp +decide only [calculate_content_quality, extract_features,
          calculate_trending_score, calculate_emotional_score, calculate_cta_score,
          trending_topics, emotional_words, cta_words, List.foldl]
        norm_num [max_def, min_def])
    (by simp +decide only [calculate_engagement_potential, extract_features,
          calculate_emotional_score, calculate_cta_score,
          emotional_words, cta_words, List.foldl]
        norm_num [max_def, min_def])).1

/-- C6: for every text in which exactly two distinct words of the fixed
toxic-word list occur as substrings of the lower-cased text (and no other
list word occurs), toxicity_score is 0.4 (two matches times 0.2) and the
unscaled safety score is 0.6 — in the enhanced variant (5-word list) and in
the service variant (14-word list). -/
theorem two_distinct_toxic_words_score (text : String) :
    (((enhanced_toxic_words.filter (fun w => strContains (pyLower text) w)).length = 2) →
      enhanced_toxicity_score text = 2/5 ∧
      max 0 (1 - enhanced_toxicity_score text) = 3/5) ∧
    (((service_toxic_words.filter (fun w => strContains (pyLower text) w)).length = 2) →
      service_toxicity_body text = 2/5 ∧
      1 - service_toxicity_body text = 3/5) := by
  constructor
  · intro h
    have e : enhanced_toxicity_score text = 2/5 := by
      rw [enhanced_toxicity_eq, h]
      norm_num
    refine ⟨e, ?_⟩
    rw [e]
    norm_num [max_def]
  · intro h
    have e : service_toxicity_body text = 2/5 := by
      unfold service_toxicity_body
      rw [List.countP_eq_length_filter, h]
      norm_num [min_def]
    refine ⟨e, ?_⟩
    rw [e]
    norm_num

/-- Witness for C6 at `"hate stupid"`: exactly two words of each toxic list
occur, and both variants yield toxicity 0.4 with safety 0.6. -/
theorem two_distinct_toxic_words_score_witness :
    (enhanced_toxicity_score ("hate stupid") = 2/5 ∧
      max 0 (1 - enhanced_toxicity_score ("hate stupid")) = 3/5) ∧
    (service_toxicity_body ("hate stupid") = 2/5 ∧
      1 - service_toxicity_body ("hate stupid") = 3/5) :=
  ⟨(two_distinct_toxic_words_score ("hate stupid")).1 (by decide),
   (two_distinct_toxic_words_score ("hate stupid")).2 (by decide)⟩

/-- C7: on the empty string all counts are 0, the four boolean features are
false, the length is 0, content_quality is exactly 0.2 (base 0.3 minus the
short-length penalty 0.1), and the whole pipeline completes, producing its
version tag and the composite score from the breakdown. -/
theorem empty_string_features_and_quality (hour : Nat) (rand : ℚ) (nowMs : Nat) :
    (extract_features ("") nowMs).hashtag_count = 0 ∧
    (extract_features ("") nowMs).mention_count = 0 ∧
    (extract_features ("") nowMs).question_mark_count = 0 ∧
    (extract_features ("") nowMs).exclamation_count = 0 ∧
    (extract_features ("") nowMs).has_url = false ∧
    (extract_features ("") nowMs).has_media = false ∧
    (extract_features ("") nowMs).is_retweet = false ∧
    (extract_features ("") nowMs).is_reply = false ∧
    (extract_features ("") nowMs).length = 0 ∧
    calculate_content_quality (extract_features ("") nowMs) = 1/5 ∧
    (calculate_virality_score ("") hour rand nowMs).algorithm_version = "enhanced-ai-v2.0" ∧
    (calculate_virality_score ("") hour rand nowMs).virality_score =
      pyInt ((calculate_virality_score ("") hour rand nowMs).breakdown.total * 100) := by
  refine ⟨rfl, rfl, rfl, rfl, rfl, rfl, rfl, rfl, rfl, ?_, rfl, rfl⟩
  simp +decide only [calculate_content_quality, extract_features,
    calculate_trending_score, calculate_emotional_score, calculate_cta_score,
    trending_topics, emotional_words, cta_words, List.foldl]
  norm_num [max_def, min_def]

/-- C8: an exception raised inside a sub-score calculator of the service is
absorbed at that calculator's try/except boundary, which returns the
documented default — 0.5 for the light ranker, 0.1 for toxicity, 0.3 for
engagement — while a normal try-block outcome is passed through unchanged,
so one failing heuristic never aborts the whole request. -/
theorem subscore_error_boundaries_default :
    (∀ e : String,
      service_light_ranker_score (Except.error e) = 1/2 ∧
      service_toxicity_score (Except.error e) = 1/10 ∧
      service_engagement_score (Except.error e) = 3/10) ∧
    (∀ (f : TweetFeatures) (t : String),
      service_light_ranker_score (Except.ok (service_light_ranker_body f)) =
        service_light_ranker_body f ∧
      service_toxicity_score (Except.ok (service_toxicity_body t)) =
        service_toxicity_body t ∧
      service_engagement_score (Except.ok (service_engagement_body f)) =
        service_engagement_body f) :=
  ⟨fun _ => ⟨rfl, rfl, rfl⟩, fun _ _ => ⟨rfl, rfl, rfl⟩⟩

/-- C9: for every breakdown and feature record the suggestion generator
returns at most 4 suggestions (one per rule group); the add-hashtags
suggestion is emitted iff hashtag_count = 0, the reduce-hashtags suggestion
iff hashtag_count > 3, and the two are never emitted together. -/
theorem suggestions_at_most_four_and_hashtag_exclusive (b : Breakdown)
    (f : TweetFeatures) :
    (generate_suggestions b f).length ≤ 4 ∧
    ((⟨"discoverability", "medium",
      "Add 1-3 relevant hashtags to increase discoverability", 12⟩ : Suggestion) ∈
        generate_suggestions b f ↔ f.hashtag_count = 0) ∧
    ((⟨"discoverability", "low",
      "Reduce hashtags to 1-3 for better performance", 8⟩ : Suggestion) ∈
        generate_suggestions b f ↔ 3 < f.hashtag_count) ∧
    ¬((⟨"discoverability", "medium",
      "Add 1-3 relevant hashtags to increase discoverability", 12⟩ : Suggestion) ∈
        generate_suggestions b f ∧
      (⟨"discoverability", "low",
      "Reduce hashtags to 1-3 for better performance", 8⟩ : Suggestion) ∈
        generate_suggestions b f) := by
  unfold generate_suggestions
  split_ifs <;> simp_all

/-- C10: the enhanced toxicity heuristic is bounded by 1 because its toxic
list has exactly 5 entries each contributing 0.2 per distinct match; hence
the safety guard `max(0, 1 - toxicity)` never changes the value, and the
breakdown's safety_score is exactly `(1 - toxicity) * 0.2`. -/
theorem enhanced_toxicity_bounded_safety_exact (text : String) (hour : Nat)
    (rand : ℚ) (nowMs : Nat) :
    enhanced_toxic_words.length = 5 ∧
    enhanced_toxicity_score text ≤ 1 ∧
    max 0 (1 - enhanced_toxicity_score text) = 1 - enhanced_toxicity_score text ∧
    (calculate_virality_score text hour rand nowMs).breakdown.safety_score =
      (1 - enhanced_toxicity_score text) * (1/5) := by
  have hle := enhanced_toxicity_le_one text
  have hmax : max 0 (1 - enhanced_toxicity_score text) = 1 - enhanced_toxicity_score text :=
    max_eq_right (by linarith)
  refine ⟨rfl, hle, hmax, ?_⟩
  rw [virality_breakdown_eq]
  dsimp only
  rw [hmax]

end Virality
